import Mathlib

/-!
Verification of the real-time chat relay of Cottage-Dev.net.

This file shallowly embeds the inbound-relay loop of
`app/web/routers/ws.py` (the `writer` coroutine, lines 80-195) together
with `app/core/turnstile.py` (`verify_turnstile`), and proves the
spec's testable properties about it.

Modelling conventions:
- Redis per-sender keys become a `SenderState` record.  Counter keys
  (`chat:count:*`, `chat:strikes:*`) are `Option (Nat × Option Nat)`:
  a stored value together with an optional absolute expiry time in
  seconds (`none` expiry = key without TTL, as after `INCR` but before
  `EXPIRE`).  Flag keys (`chat:challenge:*`, `chat:block:*`) are only
  ever created by `SET ... ex=...`, so they are `Option Nat` (absolute
  expiry).  A key is live at time `now` iff its expiry is absent or
  `> now`; expired keys behave exactly like absent ones (Redis lazy
  expiry).
- Wall-clock time is passed explicitly: `now` in seconds drives TTLs,
  `nowMs` in milliseconds is the fallback message timestamp.
- Nondeterministic externals become explicit inputs: `freshId` is the
  value `uuid4()` yields for this message, `network` is the verdict the
  Cloudflare siteverify HTTP call would return, `avatar` is the result
  of the filesystem avatar lookup.
- Python exceptions raised by Redis calls are modelled by a `Fault`
  parameter naming the (at most one) backing-store call that raises;
  the `try/except` structure of the source decides where control
  resumes.  Socket `send_text` failures are themselves swallowed
  one-by-one in the source and do not alter any state we model.
- The inbound frame is modelled after JSON parsing succeeded
  (`Payload`); the raw-frame fallback of lines 90-93 differs only in
  skipping `.strip()` and is not needed by the properties below.
-/

namespace CottageChat

/-- Python `str.strip()` of line 87: drop ASCII whitespace from both
ends.  Defined over the character list so that it is structurally
recursive and kernel-reducible. -/
def isSpace (c : Char) : Bool :=
  c == ' ' || c == '\t' || c == '\n' || c == '\r'

/-- `str.strip()` on a string, via its character list. -/
def pyStrip (s : String) : String :=
  String.mk (((s.data.dropWhile isSpace).reverse.dropWhile isSpace).reverse)

/-- A Redis counter key (`chat:count:*` / `chat:strikes:*`): stored
value with optional absolute expiry (seconds). `none` = key absent. -/
abbrev CounterKey := Option (Nat × Option Nat)

/-- The four per-sender rate-limit sub-keys of §3 of the spec
(`chat:count:`, `chat:strikes:`, `chat:challenge:`, `chat:block:`
prefixed by the sender key, ws.py lines 109-112). -/
structure SenderState where
  count : CounterKey
  strikes : CounterKey
  challenge : Option Nat
  block : Option Nat
  deriving Repr, DecidableEq

/-- Fresh sender: no rate-limit key exists yet. -/
def freshS : SenderState := ⟨none, none, none, none⟩

/-- Sender whose only live key is the burst counter: value `c`,
expiring at absolute time `e`. -/
def countOnly (c e : Nat) : SenderState := ⟨some (c, some e), none, none, none⟩

/-- `TTL block_key` as used on ws.py line 115-116: `some remaining`
when the key is live (so the Python guard `ttl and ttl > 0` holds),
`none` when absent or expired (Redis returns -2, failing the guard). -/
def SenderState.blockTTL (s : SenderState) (now : Nat) : Option Nat :=
  match s.block with
  | some e => if now < e then some (e - now) else none
  | none => none

/-- `EXISTS challenge_key` (ws.py line 134). -/
def challengeLive (s : SenderState) (now : Nat) : Bool :=
  match s.challenge with
  | some e => now < e
  | none => false

/-- Redis `INCR` on a counter key (ws.py lines 130, 136): an absent or
lazily-expired key is recreated at 1 with no TTL; a live key is
incremented keeping its TTL. Returns the post-increment value. -/
def incrKey (k : CounterKey) (now : Nat) : Nat × CounterKey :=
  match k with
  | some (v, some e) =>
      if now < e then (v + 1, some (v + 1, some e)) else (1, some (1, none))
  | some (v, none) => (v + 1, some (v + 1, none))
  | none => (1, some (1, none))

/-- Redis `EXPIRE key secs` (ws.py lines 132, 138): sets the absolute
expiry of an existing key; no-op on an absent key. -/
def expireKey (k : CounterKey) (now secs : Nat) : CounterKey :=
  match k with
  | some (v, _) => some (v, some (now + secs))
  | none => none

/-- `app/core/turnstile.py`, `verify_turnstile` (lines 8-27): when no
secret key is configured the check is disabled and always passes; a
missing/empty token fails; otherwise the verdict is the siteverify
HTTP call's result (any network error yields `false`), passed here as
the explicit `network` input. -/
def verify_turnstile (secretConfigured : Bool) (token : Option String)
    (network : Bool) : Bool :=
  if secretConfigured = false then true
  else
    match token with
    | none => false
    | some t => if t == "" then false else network

/-- Client → server frame after JSON parsing (ws.py lines 85-89 and
157).  `user`/`username` model client-supplied identity fields the
server never reads. -/
structure Payload where
  text : Option String
  ts : Option Nat
  id : Option String
  cf : Option String
  user : Option String
  username : Option String
  deriving Repr, DecidableEq

/-- Connection-level context fixed at accept time (ws.py lines 40-48):
the display name computed from the authenticated identity (absent for
anonymous connections) and the avatar lookup result, plus whether the
Turnstile secret is configured for this deployment. -/
structure Conn where
  displayName : Option String
  avatar : Option String
  turnstileConfigured : Bool
  deriving Repr, DecidableEq

/-- Per-message inputs: receipt time (seconds for TTLs, ms for the
timestamp fallback), the `uuid4()` value, the verdict of the external
siteverify call for this message's token, and the parsed frame. -/
structure Msg where
  now : Nat
  nowMs : Nat
  freshId : String
  network : Bool
  payload : Payload
  deriving Repr, DecidableEq

/-- `(user.name or user.email)[:32]` of ws.py line 44. -/
def computeDisplayName (name : Option String) (email : String) : String :=
  (match name with
   | some n => if n == "" then email else n
   | none => email).take 32

/-- The backing-store calls of one writer-loop iteration that can
raise (ws.py lines 115-189). -/
inductive RedisOp where
  | opTtlBlock
  | opIncrCount
  | opExpireCount
  | opExistsChallenge
  | opIncrStrikes
  | opExpireStrikes
  | opSetBlock
  | opSetChallenge
  | opDelChallenge
  | opPublish
  | opLpush
  | opLtrim
  deriving Repr, DecidableEq

/-- At most one backing-store call raises during the iteration. -/
inductive Fault where
  | noFault
  | failAt (op : RedisOp)
  deriving Repr, DecidableEq

/-- Does this fault make the given call raise? -/
def Fault.hits : Fault → RedisOp → Bool
  | .noFault, _ => false
  | .failAt o, o2 => o == o2

/-- Structured error replies of ws.py lines 102, 118-124, 142-148,
164-169 (the human-readable `error` string is determined by the code
path and omitted). -/
inductive Reply where
  | errTooLong (client_id : Option String)
  | errBlocked (retry_after : Nat) (client_id : Option String)
  | errChallenge (client_id : Option String)
  deriving Repr, DecidableEq

/-- The ChannelMessage built on ws.py line 183. -/
structure Event where
  id : String
  user : String
  text : String
  ts : Nat
  avatar : Option String
  client_id : Option String
  deriving Repr, DecidableEq

/-- Result of one writer-loop iteration: frame silently ignored
(`continue` at lines 95, 98), rejected with an error reply
(`continue` after a send), published to the channel, or — when the
un-guarded `redis.publish` on line 185 raises — the loop itself ends
via the outer handler at line 194. -/
inductive StepOutcome where
  | ignored
  | rejected (r : Reply)
  | published (ev : Event)
  | loopExit
  deriving Repr, DecidableEq

/-- Outcome of the guarded rate-limit region (ws.py lines 106-180):
either an error reply was sent and the iteration `continue`s, or
control proceeds to the publish stage (including every fail-open
path). -/
inductive RLOutcome where
  | rlReply (r : Reply)
  | rlProceed
  deriving Repr, DecidableEq

/-- `ok = False; if cf_token: ok = await verify_turnstile(...)`
(ws.py lines 157-161): a missing or empty token is falsy and skips
verification. -/
def cfPass (conn : Conn) (m : Msg) : Bool :=
  match m.payload.cf with
  | some t => if t == "" then false else
      verify_turnstile conn.turnstileConfigured (some t) m.network
  | none => false

/-- ws.py lines 156-177: when a challenge is required, a passing
token deletes the challenge key and control proceeds to publish; a
failing or absent token replies `challenge_required`.  A raising
`DELETE` is swallowed by its own inner `try` (lines 174-177) and
control still proceeds, with the flag left in place. -/
def stageChallenge (conn : Conn) (m : Msg) (cid : Option String)
    (fault : Fault) (needChal : Bool) (s : SenderState) :
    RLOutcome × SenderState :=
  if needChal then
    if cfPass conn m then
      if fault.hits .opDelChallenge then (.rlProceed, s)
      else (.rlProceed, { s with challenge := none })
    else (.rlReply (.errChallenge cid), s)
  else (.rlProceed, s)

/-- ws.py lines 139-154: escalation once the burst counter exceeded 5
and strikes have been incremented to `strikes`.  Three or more strikes
set the 60 s block and reply `blocked` (`retry_after: 60`); fewer set
the 120 s challenge flag and force the challenge gate for this
message. -/
def stageVerdict (conn : Conn) (m : Msg) (cid : Option String)
    (fault : Fault) (strikes : Nat) (s : SenderState) :
    RLOutcome × SenderState :=
  if strikes ≥ 3 then
    if fault.hits .opSetBlock then (.rlProceed, s)
    else (.rlReply (.errBlocked 60 cid), { s with block := some (m.now + 60) })
  else
    if fault.hits .opSetChallenge then (.rlProceed, s)
    else stageChallenge conn m cid fault true
      { s with challenge := some (m.now + 120) }

/-- ws.py lines 134-155 after the count increment: read the pending
challenge flag, then either escalate (count above 5: increment
strikes, set the 120 s strikes expiry on a first strike) or go to the
challenge gate with the pending flag. -/
def stageAfterExists (conn : Conn) (m : Msg) (cid : Option String)
    (fault : Fault) (cnt : Nat) (need0 : Bool) (s : SenderState) :
    RLOutcome × SenderState :=
  if cnt > 5 then
    if fault.hits .opIncrStrikes then (.rlProceed, s)
    else
      let r := incrKey s.strikes m.now
      let s1 := { s with strikes := r.2 }
      if r.1 == 1 then
        if fault.hits .opExpireStrikes then (.rlProceed, s1)
        else stageVerdict conn m cid fault r.1
          { s1 with strikes := expireKey s1.strikes m.now 120 }
      else stageVerdict conn m cid fault r.1 s1
  else stageChallenge conn m cid fault need0 s

/-- ws.py line 134: `require_challenge = await redis.exists(challenge_key)`. -/
def stageExists (conn : Conn) (m : Msg) (cid : Option String)
    (fault : Fault) (cnt : Nat) (s : SenderState) :
    RLOutcome × SenderState :=
  if fault.hits .opExistsChallenge then (.rlProceed, s)
  else stageAfterExists conn m cid fault cnt (challengeLive s m.now) s

/-- ws.py lines 129-132: increment the burst counter; a first
increment in a window sets its 10 s expiry. -/
def stageCount (conn : Conn) (m : Msg) (cid : Option String)
    (fault : Fault) (s : SenderState) : RLOutcome × SenderState :=
  if fault.hits .opIncrCount then (.rlProceed, s)
  else
    let r := incrKey s.count m.now
    let s1 := { s with count := r.2 }
    if r.1 == 1 then
      if fault.hits .opExpireCount then (.rlProceed, s1)
      else stageExists conn m cid fault r.1
        { s1 with count := expireKey s1.count m.now 10 }
    else stageExists conn m cid fault r.1 s1

/-- The whole guarded rate-limit region, ws.py lines 106-180: the
block-TTL gate first (before any counter is touched), then counting,
escalation and the challenge gate.  Any raising call lands in the
`except` of line 178 and fails open: control proceeds to publish with
whatever state mutations already happened. -/
def rateLimitCheck (conn : Conn) (m : Msg) (cid : Option String)
    (fault : Fault) (s : SenderState) : RLOutcome × SenderState :=
  if fault.hits .opTtlBlock then (.rlProceed, s)
  else
    match s.blockTTL m.now with
    | some ttl => (.rlReply (.errBlocked ttl cid), s)
    | none => stageCount conn m cid fault s

/-- `ts = int(payload.get("ts") or 0) or int(time.time() * 1000)`
(ws.py line 88). -/
def tsOf (p : Payload) (nowMs : Nat) : Nat :=
  match p.ts with
  | some t => if t ≠ 0 then t else nowMs
  | none => nowMs

/-- The ChannelMessage of ws.py line 183 for this message. -/
def mkEvent (conn : Conn) (m : Msg) (dn : String) : Event :=
  { id := m.freshId
    user := dn
    text := pyStrip (m.payload.text.getD "")
    ts := tsOf m.payload m.nowMs
    avatar := conn.avatar
    client_id := m.payload.id }

/-- History append, ws.py lines 188-189: `LPUSH` newest-first then
`LTRIM 0 49`, keeping the 50 most recent entries. -/
def appendHist (ev : Event) (hist : List Event) : List Event :=
  (ev :: hist).take 50

/-- One iteration of the writer loop (ws.py lines 83-191) on a parsed
frame: validation (empty after strip → ignore; no display name →
ignore; over 2000 characters → `too_long`), then the rate-limit
region, then publish and best-effort history append.  A raising
`publish` (line 185) is the one backing-store call outside every local
handler: it ends the loop (`loopExit`).  A raising `LPUSH` skips both
history calls; a raising `LTRIM` leaves the pushed entry untrimmed. -/
def processFrame (conn : Conn) (m : Msg) (fault : Fault)
    (s : SenderState) (hist : List Event) :
    StepOutcome × SenderState × List Event :=
  let msg_text := pyStrip (m.payload.text.getD "")
  let cid := m.payload.id
  if msg_text == "" then (.ignored, s, hist)
  else
    match conn.displayName with
    | none => (.ignored, s, hist)
    | some dn =>
      if msg_text.length > 2000 then (.rejected (.errTooLong cid), s, hist)
      else
        match rateLimitCheck conn m cid fault s with
        | (.rlReply r, s1) => (.rejected r, s1, hist)
        | (.rlProceed, s1) =>
          if fault.hits .opPublish then (.loopExit, s1, hist)
          else
            let ev := mkEvent conn m dn
            if fault.hits .opLpush then (.published ev, s1, hist)
            else if fault.hits .opLtrim then (.published ev, s1, ev :: hist)
            else (.published ev, s1, appendHist ev hist)

/-- Fault-free run of the writer loop over a list of inbound frames
from one sender, returning the final rate-limit state, the final
history, and the per-message outcomes in order. -/
def runTrace (conn : Conn) (s : SenderState) (hist : List Event) :
    List Msg → SenderState × List Event × List StepOutcome
  | [] => (s, hist, [])
  | m :: rest =>
    let r := processFrame conn m .noFault s hist
    let rec' := runTrace conn r.2.1 r.2.2 rest
    (rec'.1, rec'.2.1, r.1 :: rec'.2.2)

/-- A frame that passes validation: non-empty after strip and at most
2000 characters. -/
def validPayload (p : Payload) : Bool :=
  pyStrip (p.text.getD "") ≠ "" && (pyStrip (p.text.getD "")).length ≤ 2000

/-- Receipt times are non-decreasing along the trace. -/
def timesSorted : List Msg → Bool
  | [] => true
  | [_] => true
  | a :: b :: r => (a.now ≤ b.now) && timesSorted (b :: r)

/-- At most 5 messages in any rolling 10-second window: any message
and the one five places later are at least 10 seconds apart (with
sorted times this is exactly the rolling-window condition). -/
def rollingOK : List Msg → Bool
  | [] => true
  | m :: rest =>
    (match rest.drop 4 with
     | [] => true
     | m6 :: _ => m.now + 10 ≤ m6.now) && rollingOK rest


def histAfter (ms : List Event) : List Event :=
  ms.foldl (fun h ev => appendHist ev h) []

lemma take50_cons (ev : Event) (l : List Event) :
    (ev :: l.take 50).take 50 = (ev :: l).take 50 := by
  have h : (50 : Nat) = 49 + 1 := rfl
  rw [h, List.take_succ_cons, List.take_succ_cons, List.take_take]
  norm_num

lemma foldl_appendHist : ∀ (ms : List Event) (h : List Event),
    ms.foldl (fun acc ev => appendHist ev acc) (h.take 50) = (ms.reverse ++ h).take 50 := by
  intro ms
  induction ms with
  | nil => intro h; simp
  | cons ev rest ih =>
    intro h
    simp only [List.foldl_cons]
    have e1 : appendHist ev (h.take 50) = (ev :: h).take 50 := take50_cons ev h
    rw [e1, ih (ev :: h)]
    simp [List.append_assoc]

lemma histAfter_eq (ms : List Event) : histAfter ms = ms.reverse.take 50 := by
  have h := foldl_appendHist ms []
  simpa [histAfter] using h

lemma appendHist_len (ev : Event) (hist : List Event) :
    (appendHist ev hist).length ≤ 50 := by
  simp [appendHist, List.length_take]

lemma processFrame_hist_le (conn : Conn) (m : Msg) (s : SenderState)
    (hist : List Event) (h : hist.length ≤ 50) :
    ((processFrame conn m .noFault s hist).2.2).length ≤ 50 := by
  unfold processFrame
  simp only [Fault.hits]
  split
  · simpa
  · split
    · simpa
    · split
      · simpa
      · split
        · simpa
        · simp [appendHist_len, appendHist]

lemma runTrace_hist_le (conn : Conn) :
    ∀ (ms : List Msg) (s : SenderState) (hist : List Event), hist.length ≤ 50 →
    ((runTrace conn s hist ms).2.1).length ≤ 50 := by
  intro ms
  induction ms with
  | nil => intro s hist h; simpa [runTrace] using h
  | cons m rest ih =>
    intro s hist h
    rw [runTrace]
    exact ih _ _ (processFrame_hist_le conn m s hist h)

/-- C2: the History Log (LPUSH then LTRIM 0 49, ws.py lines 186-191)
never holds more than 50 entries; after N ≥ 50 appends its content is
exactly the last 50 appended messages, newest first; and along any
fault-free run of the writer loop the bound is preserved. -/
theorem c2_history_bounded_last50 :
    (∀ ms : List Event, (histAfter ms).length ≤ 50) ∧
    (∀ ms : List Event, 50 ≤ ms.length →
      histAfter ms = (ms.drop (ms.length - 50)).reverse) ∧
    (∀ (conn : Conn) (ms : List Msg) (s : SenderState) (hist : List Event),
      hist.length ≤ 50 → ((runTrace conn s hist ms).2.1).length ≤ 50) := by
  refine ⟨?_, ?_, ?_⟩
  · intro ms
    rw [histAfter_eq]
    simp [List.length_take]
  · intro ms hlen
    rw [histAfter_eq]
    have h : (ms.reverse.take 50).reverse = ms.reverse.reverse.drop (ms.reverse.length - 50) := by
      rw [List.reverse_take]
    have h2 : ms.reverse.take 50 = (ms.drop (ms.length - 50)).reverse := by
      have := congrArg List.reverse h
      simpa using this
    exact h2
  · intro conn ms s hist h
    exact runTrace_hist_le conn ms s hist h

/-- Witness for C2 at a concrete 55-message sequence. -/
theorem c2_witness :
    (histAfter (List.replicate 55 ⟨"i", "u", "t", 1, none, none⟩)).length ≤ 50 ∧
    histAfter (List.replicate 55 ⟨"i", "u", "t", 1, none, none⟩) =
      ((List.replicate 55 (⟨"i", "u", "t", 1, none, none⟩ : Event)).drop
        ((List.replicate 55 (⟨"i", "u", "t", 1, none, none⟩ : Event)).length - 50)).reverse ∧
    ((runTrace ⟨some "a", none, true⟩ freshS [] []).2.1).length ≤ 50 :=
  ⟨c2_history_bounded_last50.1 _,
   c2_history_bounded_last50.2.1 _ (by simp),
   c2_history_bounded_last50.2.2 ⟨some "a", none, true⟩ [] freshS [] (by simp)⟩

lemma processFrame_emptyText (conn : Conn) (m : Msg) (fault : Fault)
    (s : SenderState) (hist : List Event)
    (h : pyStrip (m.payload.text.getD "") = "") :
    processFrame conn m fault s hist = (.ignored, s, hist) := by
  unfold processFrame
  simp [h]

lemma processFrame_noAuth (conn : Conn) (m : Msg) (fault : Fault)
    (s : SenderState) (hist : List Event)
    (h : conn.displayName = none) :
    processFrame conn m fault s hist = (.ignored, s, hist) := by
  unfold processFrame
  by_cases he : pyStrip (m.payload.text.getD "") = "" <;> simp [he, h]

lemma processFrame_tooLong (conn : Conn) (m : Msg) (fault : Fault)
    (s : SenderState) (hist : List Event) (dn : String)
    (hdn : conn.displayName = some dn)
    (hlong : 2000 < (pyStrip (m.payload.text.getD "")).length) :
    processFrame conn m fault s hist = (.rejected (.errTooLong m.payload.id), s, hist) := by
  have hne : ¬ pyStrip (m.payload.text.getD "") = "" := by
    intro h; rw [h] at hlong; exact absurd hlong (by decide)
  unfold processFrame
  simp [hne, hdn, hlong]

/-- C8: an inbound message whose stripped text exceeds 2000 characters
is rejected with code `too_long` (ws.py lines 99-105) and neither
published nor appended to history, for every rate-limit state and
every backing-store fault. -/
theorem c8_too_long_rejected (conn : Conn) (m : Msg) (fault : Fault)
    (s : SenderState) (hist : List Event) (dn : String)
    (hdn : conn.displayName = some dn)
    (hlong : 2000 < (pyStrip (m.payload.text.getD "")).length) :
    processFrame conn m fault s hist = (.rejected (.errTooLong m.payload.id), s, hist) :=
  processFrame_tooLong conn m fault s hist dn hdn hlong

lemma dropWhile_noSpace (l : List Char) (h : ∀ c ∈ l, isSpace c = false) :
    l.dropWhile isSpace = l := by
  cases l with
  | nil => rfl
  | cons c r => simp [List.dropWhile_cons, h c (by simp)]

lemma pyStrip_noSpace (l : List Char) (h : ∀ c ∈ l, isSpace c = false) :
    pyStrip (String.mk l) = String.mk l := by
  unfold pyStrip
  rw [show (String.mk l).data = l from rfl, dropWhile_noSpace l h,
    dropWhile_noSpace l.reverse (fun c hc => h c (List.mem_reverse.mp hc)),
    List.reverse_reverse]

lemma length_mkStr (l : List Char) : (String.mk l).length = l.length := rfl

/-- Witness for C8: a 2001-character text is rejected as `too_long`
even while the sender is blocked. -/
theorem c8_witness :
    processFrame ⟨some "a", none, true⟩
      ⟨0, 0, "u", false, ⟨some (String.mk (List.replicate 2001 'b')), none, none, none, none, none⟩⟩
      .noFault ⟨none, none, none, some 100⟩ [] =
      (.rejected (.errTooLong none), ⟨none, none, none, some 100⟩, []) :=
  c8_too_long_rejected _ _ _ _ _ "a" rfl (by
    have h := pyStrip_noSpace (List.replicate 2001 'b')
      (fun c hc => by rw [List.eq_of_mem_replicate hc]; rfl)
    rw [show ((⟨0, 0, "u", false, ⟨some (String.mk (List.replicate 2001 'b')), none, none,
        none, none, none⟩⟩ : Msg).payload.text.getD "") = String.mk (List.replicate 2001 'b')
        from rfl, h, length_mkStr, List.length_replicate]
    decide)

/-- C9: the three validation rejections (empty text after strip, no
resolved sender identity, text over 2000 characters; ws.py lines
94-105) happen before any rate-limit key is read or written: the
sender's four rate-limit sub-keys and the history are returned
unchanged in each case. -/
theorem c9_validation_no_state_change (conn : Conn) (m : Msg)
    (fault : Fault) (s : SenderState) (hist : List Event) :
    (pyStrip (m.payload.text.getD "") = "" →
      processFrame conn m fault s hist = (.ignored, s, hist)) ∧
    (conn.displayName = none →
      processFrame conn m fault s hist = (.ignored, s, hist)) ∧
    (∀ dn, conn.displayName = some dn →
      2000 < (pyStrip (m.payload.text.getD "")).length →
      processFrame conn m fault s hist = (.rejected (.errTooLong m.payload.id), s, hist)) :=
  ⟨processFrame_emptyText conn m fault s hist,
   processFrame_noAuth conn m fault s hist,
   fun dn hdn hl => processFrame_tooLong conn m fault s hist dn hdn hl⟩

/-- Witness for C9 at concrete inputs: a whitespace-only frame, an
anonymous sender, and an oversized frame, each leaving state and
history unchanged. -/
theorem c9_witness :
    (processFrame ⟨some "a", none, true⟩ ⟨0, 0, "u", false, ⟨some " ", none, none, none, none, none⟩⟩
        .noFault freshS [] = (.ignored, freshS, [])) ∧
    (processFrame ⟨none, none, true⟩ ⟨0, 0, "u", false, ⟨some "hi", none, none, none, none, none⟩⟩
        .noFault freshS [] = (.ignored, freshS, [])) ∧
    (processFrame ⟨some "a", none, true⟩
        ⟨0, 0, "u", false, ⟨some (String.mk (List.replicate 2500 'c')), none, some "k", none, none, none⟩⟩
        .noFault ⟨some (3, some 9), none, none, none⟩ [] =
      (.rejected (.errTooLong (some "k")), ⟨some (3, some 9), none, none, none⟩, [])) :=
  ⟨(c9_validation_no_state_change _ _ _ _ _).1 (by decide),
   (c9_validation_no_state_change _ _ _ _ _).2.1 rfl,
   (c9_validation_no_state_change _ _ _ _ _).2.2 "a" rfl (by
    have h := pyStrip_noSpace (List.replicate 2500 'c')
      (fun c hc => by rw [List.eq_of_mem_replicate hc]; rfl)
    rw [show ((⟨0, 0, "u", false, ⟨some (String.mk (List.replicate 2500 'c')), none, some "k",
        none, none, none⟩⟩ : Msg).payload.text.getD "") = String.mk (List.replicate 2500 'c')
        from rfl, h, length_mkStr, List.length_replicate]
    decide)⟩

lemma processFrame_published_user (conn : Conn) (m : Msg) (fault : Fault)
    (s : SenderState) (hist : List Event) (dn : String)
    (hdn : conn.displayName = some dn) :
    ∀ ev s1 h1, processFrame conn m fault s hist = (.published ev, s1, h1) → ev.user = dn := by
  intro ev s1 h1 h
  unfold processFrame at h
  rw [hdn] at h
  by_cases he : pyStrip (m.payload.text.getD "") = ""
  · simp [he] at h
  · simp only [he, if_neg, ite_false] at h
    split at h
    · simp_all
    · split at h
      · simp_all
      · split at h
        · simp_all
        · split at h
          · simp_all
          · split at h
            · simp only [Prod.mk.injEq, StepOutcome.published.injEq] at h
              rw [← h.1]
              rfl
            · split at h <;>
              · simp only [Prod.mk.injEq, StepOutcome.published.injEq] at h
                rw [← h.1]
                rfl

/-- C10: the published `user` field is exactly the display name fixed
at connect time (ws.py lines 44, 86, 183), and the processing of a
frame is independent of client-supplied `user`/`username` payload
fields: frames agreeing on `text`, `ts`, `id`, `cf` (and arrival
context) yield identical outcomes, state changes and history. -/
theorem c10_user_field_noninterference (conn : Conn) (m m' : Msg)
    (fault : Fault) (s : SenderState) (hist : List Event) :
    (m.now = m'.now → m.nowMs = m'.nowMs → m.freshId = m'.freshId →
     m.network = m'.network → m.payload.text = m'.payload.text →
     m.payload.ts = m'.payload.ts → m.payload.id = m'.payload.id →
     m.payload.cf = m'.payload.cf →
     processFrame conn m fault s hist = processFrame conn m' fault s hist) ∧
    (∀ dn ev s1 h1, conn.displayName = some dn →
      processFrame conn m fault s hist = (.published ev, s1, h1) → ev.user = dn) := by
  constructor
  · obtain ⟨n1, n2, n3, n4, p⟩ := m
    obtain ⟨q1, q2, q3, q4, q5, q6⟩ := p
    obtain ⟨n1', n2', n3', n4', p'⟩ := m'
    obtain ⟨q1', q2', q3', q4', q5', q6'⟩ := p'
    intro h1 h2 h3 h4 h5 h6 h7 h8
    simp only at h1 h2 h3 h4 h5 h6 h7 h8
    subst h1; subst h2; subst h3; subst h4; subst h5; subst h6; subst h7; subst h8
    rfl
  · intro dn ev s1 h1 hdn h
    exact processFrame_published_user conn m fault s hist dn hdn ev s1 h1 h

/-- Witness for C10: two frames differing only in `user`/`username`
produce the same published message, whose `user` field is the
session's display name. -/
theorem c10_witness :
    (processFrame ⟨some "a", none, true⟩
        ⟨0, 0, "u", false, ⟨some "hi", some 7, some "k", none, some "mallory", none⟩⟩
        .noFault freshS [] =
     processFrame ⟨some "a", none, true⟩
        ⟨0, 0, "u", false, ⟨some "hi", some 7, some "k", none, none, some "eve"⟩⟩
        .noFault freshS []) ∧
    (∀ ev s1 h1,
      processFrame ⟨some "a", none, true⟩
        ⟨0, 0, "u", false, ⟨some "hi", some 7, some "k", none, some "mallory", none⟩⟩
        .noFault freshS [] = (.published ev, s1, h1) → ev.user = "a") :=
  ⟨(c10_user_field_noninterference ⟨some "a", none, true⟩
      ⟨0, 0, "u", false, ⟨some "hi", some 7, some "k", none, some "mallory", none⟩⟩
      ⟨0, 0, "u", false, ⟨some "hi", some 7, some "k", none, none, some "eve"⟩⟩
      .noFault freshS []).1 rfl rfl rfl rfl rfl rfl rfl rfl,
   fun ev s1 h1 h => (c10_user_field_noninterference ⟨some "a", none, true⟩
      ⟨0, 0, "u", false, ⟨some "hi", some 7, some "k", none, some "mallory", none⟩⟩
      ⟨0, 0, "u", false, ⟨some "hi", some 7, some "k", none, none, some "eve"⟩⟩
      .noFault freshS []).2 "a" ev s1 h1 rfl h⟩

lemma validPayload_parts (p : Payload) (hv : validPayload p = true) :
    ¬ pyStrip (p.text.getD "") = "" ∧ ¬ (pyStrip (p.text.getD "")).length > 2000 := by
  simp [validPayload] at hv
  exact ⟨hv.1, by omega⟩

lemma challengeLive_setCount (s : SenderState) (x : CounterKey) (now : Nat) :
    challengeLive { s with count := x } now = challengeLive s now := rfl

/-- The value of the `chat:count` key after ws.py lines 129-132
(increment; set the 10 s expiry when this opened a new window). -/
def countAfter (k : CounterKey) (now : Nat) : CounterKey :=
  if (incrKey k now).1 = 1 then expireKey (incrKey k now).2 now 10
  else (incrKey k now).2

/-- The value of the `chat:strikes` key after ws.py lines 136-138
(increment; set the 120 s expiry on a first strike). -/
def strikesAfter (k : CounterKey) (now : Nat) : CounterKey :=
  if (incrKey k now).1 = 1 then expireKey (incrKey k now).2 now 120
  else (incrKey k now).2

lemma processFrame_plain (conn : Conn) (m : Msg) (dn : String) (s : SenderState)
    (hist : List Event)
    (hdn : conn.displayName = some dn)
    (hv : validPayload m.payload = true)
    (hb : s.blockTTL m.now = none)
    (hc : challengeLive s m.now = false)
    (hcnt : (incrKey s.count m.now).1 ≤ 5) :
    processFrame conn m .noFault s hist =
      (.published (mkEvent conn m dn),
       { s with count := countAfter s.count m.now },
       appendHist (mkEvent conn m dn) hist) := by
  obtain ⟨hne, hlen⟩ := validPayload_parts m.payload hv
  simp only [countAfter]
  have hng : ¬ (incrKey s.count m.now).1 > 5 := by omega
  unfold processFrame rateLimitCheck stageCount stageExists stageAfterExists stageChallenge
  simp only [hdn, Fault.hits, hb]
  simp [hne, hlen, challengeLive_setCount, hc, hng, mkEvent]
  split
  · rename_i r1 s1 heq
    split at heq <;> simp_all
  · rename_i s1 heq
    split at heq <;> simp_all

lemma processFrame_blocked (conn : Conn) (m : Msg) (fault : Fault) (dn : String)
    (s : SenderState) (hist : List Event) (ttl : Nat)
    (hdn : conn.displayName = some dn)
    (hv : validPayload m.payload = true)
    (hf : fault.hits .opTtlBlock = false)
    (hb : s.blockTTL m.now = some ttl) :
    processFrame conn m fault s hist =
      (.rejected (.errBlocked ttl m.payload.id), s, hist) := by
  obtain ⟨hne, hlen⟩ := validPayload_parts m.payload hv
  unfold processFrame rateLimitCheck
  simp [hdn, hne, hlen, hf, hb]

lemma processFrame_thirdStrike (conn : Conn) (m : Msg) (dn : String)
    (s : SenderState) (hist : List Event)
    (hdn : conn.displayName = some dn)
    (hv : validPayload m.payload = true)
    (hb : s.blockTTL m.now = none)
    (hcnt : (incrKey s.count m.now).1 > 5)
    (hst : (incrKey s.strikes m.now).1 ≥ 3) :
    processFrame conn m .noFault s hist =
      (.rejected (.errBlocked 60 m.payload.id),
       { s with count := countAfter s.count m.now,
                strikes := strikesAfter s.strikes m.now,
                block := some (m.now + 60) },
       hist) := by
  obtain ⟨hne, hlen⟩ := validPayload_parts m.payload hv
  have h1 : ¬ (incrKey s.count m.now).1 = 1 := by omega
  have h2 : ¬ (incrKey s.strikes m.now).1 = 1 := by omega
  unfold processFrame rateLimitCheck stageCount stageExists stageAfterExists stageVerdict
  simp only [countAfter, strikesAfter, Fault.hits, hdn, hb]
  simp [hne, hlen, h1, h2, hcnt, hst]

lemma processFrame_challengeGate (conn : Conn) (m : Msg) (dn : String)
    (s : SenderState) (hist : List Event)
    (hdn : conn.displayName = some dn)
    (hv : validPayload m.payload = true)
    (hb : s.blockTTL m.now = none)
    (hcnt : (incrKey s.count m.now).1 > 5)
    (hst : (incrKey s.strikes m.now).1 < 3) :
    processFrame conn m .noFault s hist =
      (if cfPass conn m then
        (.published (mkEvent conn m dn),
         { s with count := countAfter s.count m.now,
                  strikes := strikesAfter s.strikes m.now,
                  challenge := none },
         appendHist (mkEvent conn m dn) hist)
       else
        (.rejected (.errChallenge m.payload.id),
         { s with count := countAfter s.count m.now,
                  strikes := strikesAfter s.strikes m.now,
                  challenge := some (m.now + 120) },
         hist)) := by
  obtain ⟨hne, hlen⟩ := validPayload_parts m.payload hv
  have h1 : ¬ (incrKey s.count m.now).1 = 1 := by omega
  have h2 : ¬ (incrKey s.strikes m.now).1 ≥ 3 := by omega
  unfold processFrame rateLimitCheck stageCount stageExists stageAfterExists stageVerdict
    stageChallenge
  simp only [countAfter, strikesAfter, Fault.hits, hdn, hb]
  simp [hne, hlen, h1, h2, hcnt]
  by_cases hcf : cfPass conn m = true <;>
    by_cases hs1 : (incrKey s.strikes m.now).1 = 1 <;>
      simp [hcf, hs1]

lemma processFrame_pending (conn : Conn) (m : Msg) (dn : String)
    (s : SenderState) (hist : List Event)
    (hdn : conn.displayName = some dn)
    (hv : validPayload m.payload = true)
    (hb : s.blockTTL m.now = none)
    (hc : challengeLive s m.now = true)
    (hcnt : (incrKey s.count m.now).1 ≤ 5) :
    processFrame conn m .noFault s hist =
      (if cfPass conn m then
        (.published (mkEvent conn m dn),
         { s with count := countAfter s.count m.now, challenge := none },
         appendHist (mkEvent conn m dn) hist)
       else
        (.rejected (.errChallenge m.payload.id),
         { s with count := countAfter s.count m.now },
         hist)) := by
  obtain ⟨hne, hlen⟩ := validPayload_parts m.payload hv
  have hng : ¬ (incrKey s.count m.now).1 > 5 := by omega
  unfold processFrame rateLimitCheck stageCount stageExists stageAfterExists stageChallenge
  simp only [countAfter, Fault.hits, hdn, hb]
  simp [hne, hlen, hng, challengeLive_setCount, hc]
  by_cases hcf : cfPass conn m = true <;>
    by_cases hc1 : (incrKey s.count m.now).1 = 1 <;>
      simp [hcf, hc1]

lemma step_fresh (conn : Conn) (m : Msg) (dn : String) (hist : List Event)
    (hdn : conn.displayName = some dn) (hv : validPayload m.payload = true) :
    processFrame conn m .noFault freshS hist =
      (.published (mkEvent conn m dn), countOnly 1 (m.now + 10),
       appendHist (mkEvent conn m dn) hist) := by
  rw [processFrame_plain conn m dn freshS hist hdn hv rfl rfl (by simp [freshS, incrKey])]
  simp [freshS, countOnly, countAfter, incrKey, expireKey]

lemma step_countOnly (conn : Conn) (m : Msg) (dn : String) (c e : Nat)
    (hist : List Event)
    (hdn : conn.displayName = some dn) (hv : validPayload m.payload = true)
    (he : m.now < e) (h1 : 1 ≤ c) (h5 : c + 1 ≤ 5) :
    processFrame conn m .noFault (countOnly c e) hist =
      (.published (mkEvent conn m dn), countOnly (c + 1) e,
       appendHist (mkEvent conn m dn) hist) := by
  rw [processFrame_plain conn m dn (countOnly c e) hist hdn hv rfl rfl
    (by simp [countOnly, incrKey, he]; omega)]
  simp [countOnly, countAfter, incrKey, expireKey, he]
  omega

lemma step_countOnly_expired (conn : Conn) (m : Msg) (dn : String) (c e : Nat)
    (hist : List Event)
    (hdn : conn.displayName = some dn) (hv : validPayload m.payload = true)
    (he : ¬ m.now < e) :
    processFrame conn m .noFault (countOnly c e) hist =
      (.published (mkEvent conn m dn), countOnly 1 (m.now + 10),
       appendHist (mkEvent conn m dn) hist) := by
  rw [processFrame_plain conn m dn (countOnly c e) hist hdn hv rfl rfl
    (by simp [countOnly, incrKey, he])]
  simp [countOnly, countAfter, incrKey, expireKey, he]

lemma step_sixth (conn : Conn) (m : Msg) (dn : String) (c e : Nat)
    (hist : List Event)
    (hdn : conn.displayName = some dn) (hv : validPayload m.payload = true)
    (he : m.now < e) (h5 : 5 ≤ c) :
    processFrame conn m .noFault (countOnly c e) hist =
      (if cfPass conn m then
        (.published (mkEvent conn m dn),
         ⟨some (c + 1, some e), some (1, some (m.now + 120)), none, none⟩,
         appendHist (mkEvent conn m dn) hist)
       else
        (.rejected (.errChallenge m.payload.id),
         ⟨some (c + 1, some e), some (1, some (m.now + 120)), some (m.now + 120), none⟩,
         hist)) := by
  rw [processFrame_challengeGate conn m dn (countOnly c e) hist hdn hv rfl
    (by simp [countOnly, incrKey, he]; omega)
    (by simp [countOnly, incrKey])]
  by_cases hcf : cfPass conn m = true <;>
    simp [hcf, countOnly, countAfter, strikesAfter, incrKey, expireKey, he] <;>
    omega

/-- C3: (i) the violation that brings the strike counter to 3 or more
sets the block flag to expire exactly 60 seconds later and replies
`blocked` with `retry_after` 60 (ws.py lines 139-151); (ii) every
valid message sent while the block flag has positive remaining TTL is
rejected with `blocked` and `retry_after` equal to the remaining TTL
(at most 60, non-increasing in time), is not published, and leaves the
whole sender state — in particular the count and strikes counters —
and the history unchanged (lines 114-127, checked before any
increment). -/
theorem c3_block_sixty_seconds (conn : Conn) (m : Msg) (dn : String)
    (s : SenderState) (hist : List Event)
    (hdn : conn.displayName = some dn)
    (hv : validPayload m.payload = true) :
    (s.blockTTL m.now = none → (incrKey s.count m.now).1 > 5 →
      (incrKey s.strikes m.now).1 ≥ 3 →
      processFrame conn m .noFault s hist =
        (.rejected (.errBlocked 60 m.payload.id),
         { s with count := countAfter s.count m.now,
                  strikes := strikesAfter s.strikes m.now,
                  block := some (m.now + 60) },
         hist)) ∧
    (∀ t0, s.block = some (t0 + 60) → t0 ≤ m.now → m.now < t0 + 60 →
      processFrame conn m .noFault s hist =
        (.rejected (.errBlocked (t0 + 60 - m.now) m.payload.id), s, hist) ∧
      t0 + 60 - m.now ≤ 60 ∧
      (∀ now2, m.now ≤ now2 → t0 + 60 - now2 ≤ t0 + 60 - m.now)) := by
  constructor
  · intro hb hcnt hst
    exact processFrame_thirdStrike conn m dn s hist hdn hv hb hcnt hst
  · intro t0 hbl hle hlt
    refine ⟨?_, by omega, fun now2 h2 => by omega⟩
    exact processFrame_blocked conn m .noFault dn s hist (t0 + 60 - m.now) hdn hv rfl
      (by simp [SenderState.blockTTL, hbl, hlt])

/-- Witness for C3: a third strike at t = 0 sets a block expiring at
60; a sender blocked until t = 70 who sends at t = 20 is rejected with
`retry_after` 50 and unchanged state. -/
theorem c3_witness :
    (processFrame ⟨some "a", none, true⟩
        ⟨0, 0, "u", false, ⟨some "hi", some 1, none, none, none, none⟩⟩ .noFault
        ⟨some (5, some 10), some (2, some 100), none, none⟩ [] =
      (.rejected (.errBlocked 60 none),
       { count := some (6, some 10), strikes := some (3, some 100),
         challenge := none, block := some 60 }, [])) ∧
    (processFrame ⟨some "a", none, true⟩
        ⟨20, 0, "u", false, ⟨some "hi", some 1, none, none, none, none⟩⟩ .noFault
        ⟨none, none, none, some 70⟩ [] =
      (.rejected (.errBlocked 50 none), ⟨none, none, none, some 70⟩, []) ∧
     (70 : Nat) - 20 ≤ 60 ∧ ∀ now2, 20 ≤ now2 → 70 - now2 ≤ 70 - 20) := by
  constructor
  · have h := (c3_block_sixty_seconds ⟨some "a", none, true⟩
      ⟨0, 0, "u", false, ⟨some "hi", some 1, none, none, none, none⟩⟩ "a"
      ⟨some (5, some 10), some (2, some 100), none, none⟩ [] rfl (by decide)).1
      rfl (by decide) (by decide)
    simpa [countAfter, strikesAfter, incrKey, expireKey] using h
  · have h := (c3_block_sixty_seconds ⟨some "a", none, true⟩
      ⟨20, 0, "u", false, ⟨some "hi", some 1, none, none, none, none⟩⟩ "a"
      ⟨none, none, none, some 70⟩ [] rfl (by decide)).2 10 rfl (by decide) (by decide)
    simpa using h

/-- C4 counterexample: a failing `redis.publish` (ws.py line 185) is
the one backing-store call not wrapped in a local handler; its
exception reaches the writer's outer `except` (line 194) and the
inbound relay loop terminates (silently).  The claim says a failure of
any backing-store operation, channel publish included, never
terminates the inbound relay loop. -/
theorem c4_counterexample :
    processFrame ⟨some "a", none, true⟩
      ⟨0, 0, "u", false, ⟨some "hi", some 1, none, none, none, none⟩⟩
      (.failAt .opPublish) freshS [] =
      (.loopExit, countOnly 1 10, []) := by decide

/-- C4 (amended): during steady-state messaging (sender not blocked,
no pending challenge, within the burst limit), a failure of any
rate-limiter call or of the history `LPUSH`/`LTRIM` is swallowed:
the loop continues and the message is still published, with no error
surfaced to the client (fail-open, ws.py lines 178-180 and 187-191).
Only a `redis.publish` failure terminates the loop. -/
theorem c4_swallowed_faults (conn : Conn) (m : Msg) (dn : String)
    (fault : Fault) (s : SenderState) (hist : List Event)
    (hdn : conn.displayName = some dn)
    (hv : validPayload m.payload = true)
    (hb : s.blockTTL m.now = none)
    (hc : challengeLive s m.now = false)
    (hcnt : (incrKey s.count m.now).1 ≤ 5)
    (hf : fault.hits .opPublish = false) :
    (processFrame conn m fault s hist).1 = .published (mkEvent conn m dn) := by
  obtain ⟨hne, hlen⟩ := validPayload_parts m.payload hv
  have hng : ¬ (incrKey s.count m.now).1 > 5 := by omega
  rcases fault with _ | op
  · rw [processFrame_plain conn m dn s hist hdn hv hb hc hcnt]
  · cases op <;>
      try (by_cases hc1 : (incrKey s.count m.now).1 = 1 <;>
        (unfold processFrame rateLimitCheck stageCount stageExists stageAfterExists
          stageChallenge;
         simp [Fault.hits, hdn, hb, hne, hlen, hng, challengeLive_setCount, hc, hc1]))
    all_goals simp [Fault.hits] at hf

/-- Witness for C4 at a concrete steady-state frame with a failing
history `LPUSH`. -/
theorem c4_witness :
    (processFrame ⟨some "a", none, true⟩
      ⟨0, 0, "u", false, ⟨some "hi", some 1, none, none, none, none⟩⟩
      (.failAt .opLpush) freshS []).1 =
      .published (mkEvent ⟨some "a", none, true⟩
        ⟨0, 0, "u", false, ⟨some "hi", some 1, none, none, none, none⟩⟩ "a") :=
  c4_swallowed_faults ⟨some "a", none, true⟩
    ⟨0, 0, "u", false, ⟨some "hi", some 1, none, none, none, none⟩⟩ "a"
    (.failAt .opLpush) freshS [] rfl (by decide) rfl rfl (by decide) rfl

lemma step_sixth_pass (conn : Conn) (m : Msg) (dn : String) (c e : Nat)
    (hist : List Event)
    (hdn : conn.displayName = some dn) (hv : validPayload m.payload = true)
    (he : m.now < e) (h5 : 5 ≤ c) (hcf : cfPass conn m = true) :
    processFrame conn m .noFault (countOnly c e) hist =
      (.published (mkEvent conn m dn),
       ⟨some (c + 1, some e), some (1, some (m.now + 120)), none, none⟩,
       appendHist (mkEvent conn m dn) hist) := by
  rw [step_sixth conn m dn c e hist hdn hv he h5]
  simp [hcf]

lemma step_sixth_fail (conn : Conn) (m : Msg) (dn : String) (c e : Nat)
    (hist : List Event)
    (hdn : conn.displayName = some dn) (hv : validPayload m.payload = true)
    (he : m.now < e) (h5 : 5 ≤ c) (hcf : cfPass conn m = false) :
    processFrame conn m .noFault (countOnly c e) hist =
      (.rejected (.errChallenge m.payload.id),
       ⟨some (c + 1, some e), some (1, some (m.now + 120)), some (m.now + 120), none⟩,
       hist) := by
  rw [step_sixth conn m dn c e hist hdn hv he h5]
  simp [hcf]

lemma runTrace_cons (conn : Conn) (s : SenderState) (hist : List Event)
    (m : Msg) (rest : List Msg) (o : StepOutcome) (s' : SenderState)
    (h' : List Event)
    (hstep : processFrame conn m .noFault s hist = (o, s', h')) :
    runTrace conn s hist (m :: rest) =
      ((runTrace conn s' h' rest).1, (runTrace conn s' h' rest).2.1,
       o :: (runTrace conn s' h' rest).2.2) := by
  simp [runTrace, hstep]

/-- C1 counterexample: with Turnstile unconfigured (`verify_turnstile`
returns `True` whenever a token is present, turnstile.py lines 9-11),
a fresh sender's 6th message inside one 10-second window that carries
any non-empty `cf` token is published with no error reply — a
configuration and input on which the 6th message silently succeeds,
contrary to the claim. -/
theorem c1_counterexample :
    ((runTrace ⟨some "a", none, false⟩ freshS []
      (List.replicate 5 (⟨0, 0, "u", false, ⟨some "hi", some 1, none, none, none, none⟩⟩ : Msg) ++
       [⟨0, 0, "u", false, ⟨some "hi", some 1, none, some "x", none, none⟩⟩])).2.2)[5]? =
      some (.published ⟨"u", "a", "hi", 1, none, none⟩) := by decide

/-- C1 (amended): a fresh sender's 6th valid message within 10 seconds
of the first is rejected with `challenge_required` — unless it carries
a verification token that passes the human-verification check (in
particular, when Turnstile is unconfigured any non-empty token
passes), in which case it is published with no error; messages 1-5
publish. -/
theorem c1_sixth_message_challenge_unless_pass (conn : Conn) (dn : String)
    (m1 m2 m3 m4 m5 m6 : Msg) (hist : List Event)
    (hdn : conn.displayName = some dn)
    (hv : ∀ m ∈ [m1, m2, m3, m4, m5, m6], validPayload m.payload = true)
    (ht2 : m2.now < m1.now + 10) (ht3 : m3.now < m1.now + 10)
    (ht4 : m4.now < m1.now + 10) (ht5 : m5.now < m1.now + 10)
    (ht6 : m6.now < m1.now + 10) :
    (runTrace conn freshS hist [m1, m2, m3, m4, m5, m6]).2.2 =
      [.published (mkEvent conn m1 dn), .published (mkEvent conn m2 dn),
       .published (mkEvent conn m3 dn), .published (mkEvent conn m4 dn),
       .published (mkEvent conn m5 dn),
       if cfPass conn m6 then .published (mkEvent conn m6 dn)
       else .rejected (.errChallenge m6.payload.id)] := by
  have hv1 := hv m1 (by simp)
  have hv2 := hv m2 (by simp)
  have hv3 := hv m3 (by simp)
  have hv4 := hv m4 (by simp)
  have hv5 := hv m5 (by simp)
  have hv6 := hv m6 (by simp)
  rw [runTrace_cons _ _ _ _ _ _ _ _ (step_fresh conn m1 dn hist hdn hv1)]
  rw [runTrace_cons _ _ _ _ _ _ _ _
    (step_countOnly conn m2 dn 1 (m1.now + 10) _ hdn hv2 ht2 (by omega) (by omega))]
  rw [runTrace_cons _ _ _ _ _ _ _ _
    (step_countOnly conn m3 dn 2 (m1.now + 10) _ hdn hv3 ht3 (by omega) (by omega))]
  rw [runTrace_cons _ _ _ _ _ _ _ _
    (step_countOnly conn m4 dn 3 (m1.now + 10) _ hdn hv4 ht4 (by omega) (by omega))]
  rw [runTrace_cons _ _ _ _ _ _ _ _
    (step_countOnly conn m5 dn 4 (m1.now + 10) _ hdn hv5 ht5 (by omega) (by omega))]
  by_cases hcf : cfPass conn m6 = true
  · rw [runTrace_cons _ _ _ _ _ _ _ _
      (step_sixth_pass conn m6 dn 5 (m1.now + 10) _ hdn hv6 ht6 (by omega) hcf)]
    simp [runTrace, hcf]
  · have hcf' : cfPass conn m6 = false := by simpa using hcf
    rw [runTrace_cons _ _ _ _ _ _ _ _
      (step_sixth_fail conn m6 dn 5 (m1.now + 10) _ hdn hv6 ht6 (by omega) hcf')]
    simp [runTrace, hcf']

/-- Witness for C1 (amended) at a concrete six-message burst with no
token on the 6th message: messages 1-5 publish, message 6 is rejected
with `challenge_required`. -/
theorem c1_witness :
    (runTrace ⟨some "a", none, true⟩ freshS []
      [⟨0, 0, "u", false, ⟨some "hi", some 1, none, none, none, none⟩⟩,
       ⟨1, 0, "u", false, ⟨some "hi", some 1, none, none, none, none⟩⟩,
       ⟨2, 0, "u", false, ⟨some "hi", some 1, none, none, none, none⟩⟩,
       ⟨3, 0, "u", false, ⟨some "hi", some 1, none, none, none, none⟩⟩,
       ⟨4, 0, "u", false, ⟨some "hi", some 1, none, none, none, none⟩⟩,
       ⟨5, 0, "u", false, ⟨some "hi", some 1, none, none, none, none⟩⟩]).2.2 =
      [.published (mkEvent ⟨some "a", none, true⟩
          ⟨0, 0, "u", false, ⟨some "hi", some 1, none, none, none, none⟩⟩ "a"),
       .published (mkEvent ⟨some "a", none, true⟩
          ⟨1, 0, "u", false, ⟨some "hi", some 1, none, none, none, none⟩⟩ "a"),
       .published (mkEvent ⟨some "a", none, true⟩
          ⟨2, 0, "u", false, ⟨some "hi", some 1, none, none, none, none⟩⟩ "a"),
       .published (mkEvent ⟨some "a", none, true⟩
          ⟨3, 0, "u", false, ⟨some "hi", some 1, none, none, none, none⟩⟩ "a"),
       .published (mkEvent ⟨some "a", none, true⟩
          ⟨4, 0, "u", false, ⟨some "hi", some 1, none, none, none, none⟩⟩ "a"),
       if cfPass ⟨some "a", none, true⟩
            ⟨5, 0, "u", false, ⟨some "hi", some 1, none, none, none, none⟩⟩ then
         .published (mkEvent ⟨some "a", none, true⟩
            ⟨5, 0, "u", false, ⟨some "hi", some 1, none, none, none, none⟩⟩ "a")
       else .rejected (.errChallenge none)] :=
  c1_sixth_message_challenge_unless_pass ⟨some "a", none, true⟩ "a"
    _ _ _ _ _ _ [] rfl (by decide)
    (by decide) (by decide) (by decide) (by decide) (by decide)

/-- C7 counterexample: after a fresh sender's 6 messages inside one
window — the sender's 1st burst violation — the final state has
`strikes` = 1 and the `challenge` flag already set (expiry 0 + 120):
the code (ws.py lines 135-154) sets the challenge on the 1st
violation, not only when strikes reach 2. -/
theorem c7_counterexample :
    (runTrace ⟨some "a", none, true⟩ freshS []
      (List.replicate 6 (⟨0, 0, "u", false, ⟨some "hi", some 1, none, none, none, none⟩⟩ : Msg))).1 =
      ⟨some (6, some 10), some (1, some 120), some 120, none⟩ := by decide

/-- C7 (amended): on a burst violation (count above 5) by a
non-blocked sender whose message carries no passing token, the
challenge flag is set with a 120-second expiry whenever the
incremented strike count is at most 2 — i.e. on the 1st and 2nd
violations — while from the 3rd violation on the sender is blocked
instead (ws.py lines 135-154). -/
theorem c7_challenge_on_first_two_violations (conn : Conn) (m : Msg)
    (dn : String) (s : SenderState) (hist : List Event)
    (hdn : conn.displayName = some dn)
    (hv : validPayload m.payload = true)
    (hb : s.blockTTL m.now = none)
    (hcnt : (incrKey s.count m.now).1 > 5)
    (hcf : cfPass conn m = false) :
    ((incrKey s.strikes m.now).1 ≤ 2 →
      processFrame conn m .noFault s hist =
        (.rejected (.errChallenge m.payload.id),
         { s with count := countAfter s.count m.now,
                  strikes := strikesAfter s.strikes m.now,
                  challenge := some (m.now + 120) },
         hist)) ∧
    ((incrKey s.strikes m.now).1 ≥ 3 →
      processFrame conn m .noFault s hist =
        (.rejected (.errBlocked 60 m.payload.id),
         { s with count := countAfter s.count m.now,
                  strikes := strikesAfter s.strikes m.now,
                  block := some (m.now + 60) },
         hist)) := by
  constructor
  · intro hst
    rw [processFrame_challengeGate conn m dn s hist hdn hv hb hcnt (by omega)]
    simp [hcf]
  · intro hst
    exact processFrame_thirdStrike conn m dn s hist hdn hv hb hcnt hst

/-- Witness for C7 (amended): a 1st violation sets the challenge flag
for 120 s; a 3rd violation blocks instead. -/
theorem c7_witness :
    (processFrame ⟨some "a", none, true⟩
        ⟨0, 0, "u", false, ⟨some "hi", some 1, none, none, none, none⟩⟩ .noFault
        (countOnly 5 10) [] =
      (.rejected (.errChallenge none),
       ⟨some (6, some 10), some (1, some 120), some 120, none⟩, [])) ∧
    (processFrame ⟨some "a", none, true⟩
        ⟨0, 0, "u", false, ⟨some "hi", some 1, none, none, none, none⟩⟩ .noFault
        ⟨some (5, some 10), some (2, some 100), none, none⟩ [] =
      (.rejected (.errBlocked 60 none),
       ⟨some (6, some 10), some (3, some 100), none, some 60⟩, [])) :=
  ⟨(c7_challenge_on_first_two_violations ⟨some "a", none, true⟩
      ⟨0, 0, "u", false, ⟨some "hi", some 1, none, none, none, none⟩⟩ "a"
      (countOnly 5 10) [] rfl (by decide) rfl (by decide) rfl).1 (by decide),
   (c7_challenge_on_first_two_violations ⟨some "a", none, true⟩
      ⟨0, 0, "u", false, ⟨some "hi", some 1, none, none, none, none⟩⟩ "a"
      ⟨some (5, some 10), some (2, some 100), none, none⟩ [] rfl (by decide) rfl
      (by decide) rfl).2 (by decide)⟩

/-- C6 counterexample: a reachable 8-message burst (Turnstile
unconfigured, so any non-empty token passes).  Message 7 carries a
passing token: it is published and the pending challenge flag is
cleared — but the very next valid, non-oversized message (message 8)
is the sender's 3rd violation and is rejected `blocked`, not
published, contradicting the claim's second half. -/
theorem c6_counterexample :
    (((runTrace ⟨some "a", none, false⟩ freshS []
      (List.replicate 6 (⟨0, 0, "u", false, ⟨some "hi", some 1, none, none, none, none⟩⟩ : Msg) ++
       [⟨0, 0, "u", false, ⟨some "hi", some 1, none, some "x", none, none⟩⟩,
        ⟨0, 0, "u", false, ⟨some "hi", some 1, none, none, none, none⟩⟩])).2.2)[6]? =
      some (.published ⟨"u", "a", "hi", 1, none, none⟩)) ∧
    ((runTrace ⟨some "a", none, false⟩ freshS []
      (List.replicate 6 (⟨0, 0, "u", false, ⟨some "hi", some 1, none, none, none, none⟩⟩ : Msg) ++
       [⟨0, 0, "u", false, ⟨some "hi", some 1, none, some "x", none, none⟩⟩])).1.challenge =
      none) ∧
    (((runTrace ⟨some "a", none, false⟩ freshS []
      (List.replicate 6 (⟨0, 0, "u", false, ⟨some "hi", some 1, none, none, none, none⟩⟩ : Msg) ++
       [⟨0, 0, "u", false, ⟨some "hi", some 1, none, some "x", none, none⟩⟩,
        ⟨0, 0, "u", false, ⟨some "hi", some 1, none, none, none, none⟩⟩])).2.2)[7]? =
      some (.rejected (.errBlocked 60 none))) := by
  refine ⟨by decide, by decide, by decide⟩

/-- C6 (amended): a message from a sender with a live pending
challenge whose token passes verification is published and clears the
challenge flag immediately (ws.py lines 156-177), provided the sender
is not blocked and the message does not reach the 3rd strike; the
very next valid, non-oversized message then publishes with no further
challenge provided the sender is not blocked then and that message
stays within the 5-per-window burst limit. -/
theorem c6_pass_clears_challenge_amended (conn : Conn) (m1 : Msg) (dn : String)
    (s : SenderState) (hist : List Event) (ce : Nat)
    (hdn : conn.displayName = some dn)
    (hv1 : validPayload m1.payload = true)
    (hch : s.challenge = some ce) (hlive : m1.now < ce)
    (hb : s.blockTTL m1.now = none)
    (hcf : cfPass conn m1 = true)
    (hnb : (incrKey s.count m1.now).1 ≤ 5 ∨ (incrKey s.strikes m1.now).1 < 3) :
    ∃ s1 h1,
      processFrame conn m1 .noFault s hist = (.published (mkEvent conn m1 dn), s1, h1) ∧
      s1.challenge = none ∧
      (∀ m2, validPayload m2.payload = true → s1.blockTTL m2.now = none →
        (incrKey s1.count m2.now).1 ≤ 5 →
        (processFrame conn m2 .noFault s1 h1).1 = .published (mkEvent conn m2 dn)) := by
  have hclive : challengeLive s m1.now = true := by simp [challengeLive, hch, hlive]
  by_cases hcnt : (incrKey s.count m1.now).1 ≤ 5
  · refine ⟨⟨countAfter s.count m1.now, s.strikes, none, s.block⟩,
      appendHist (mkEvent conn m1 dn) hist, ?_, rfl, ?_⟩
    · rw [processFrame_pending conn m1 dn s hist hdn hv1 hb hclive hcnt]
      simp [hcf]
    · intro m2 hv2 hb2 hcnt2
      rw [processFrame_plain conn m2 dn _ _ hdn hv2 hb2 rfl hcnt2]
  · have hcnt' : (incrKey s.count m1.now).1 > 5 := by omega
    have hst : (incrKey s.strikes m1.now).1 < 3 := hnb.resolve_left hcnt
    refine ⟨⟨countAfter s.count m1.now, strikesAfter s.strikes m1.now, none, s.block⟩,
      appendHist (mkEvent conn m1 dn) hist, ?_, rfl, ?_⟩
    · rw [processFrame_challengeGate conn m1 dn s hist hdn hv1 hb hcnt' hst]
      simp [hcf]
    · intro m2 hv2 hb2 hcnt2
      rw [processFrame_plain conn m2 dn _ _ hdn hv2 hb2 rfl hcnt2]

/-- Witness for C6 (amended) at a concrete pending-challenge state
with a passing token (Turnstile unconfigured). -/
theorem c6_witness :
    ∃ s1 h1,
      processFrame ⟨some "a", none, false⟩
        ⟨0, 0, "u", false, ⟨some "hi", some 1, none, some "x", none, none⟩⟩ .noFault
        ⟨some (1, some 10), none, some 100, none⟩ [] =
        (.published (mkEvent ⟨some "a", none, false⟩
          ⟨0, 0, "u", false, ⟨some "hi", some 1, none, some "x", none, none⟩⟩ "a"), s1, h1) ∧
      s1.challenge = none ∧
      (∀ m2, validPayload m2.payload = true → s1.blockTTL m2.now = none →
        (incrKey s1.count m2.now).1 ≤ 5 →
        (processFrame ⟨some "a", none, false⟩ m2 .noFault s1 h1).1 =
          .published (mkEvent ⟨some "a", none, false⟩ m2 "a")) :=
  c6_pass_clears_challenge_amended ⟨some "a", none, false⟩
    ⟨0, 0, "u", false, ⟨some "hi", some 1, none, some "x", none, none⟩⟩ "a"
    ⟨some (1, some 10), none, some 100, none⟩ [] 100 rfl (by decide) rfl (by decide)
    rfl (by decide) (Or.inl (by decide))

/-- Window invariant for the burst counter: whenever the next `k + 1`
pending messages all arrive before the counter's expiry `e`, the
counter value `c` plus those arrivals stays within the 5-message
budget. -/
def winInv (c e : Nat) (r : List Msg) : Prop :=
  ∀ k, k < r.length → (∀ x ∈ r.take (k + 1), x.now < e) → c + k + 1 ≤ 5

lemma rollingOK_tail (m : Msg) (rest : List Msg)
    (h : rollingOK (m :: rest) = true) : rollingOK rest = true := by
  simp only [rollingOK, Bool.and_eq_true] at h
  exact h.2

lemma winInv_of_rolling (m : Msg) (rest : List Msg)
    (h : rollingOK (m :: rest) = true) : winInv 1 (m.now + 10) rest := by
  intro k hk htake
  by_contra hgt
  have hk4 : 4 ≤ k := by omega
  have hlen : 4 < rest.length := by omega
  have hdrop : rest.drop 4 = rest[4] :: rest.drop 5 := List.drop_eq_getElem_cons hlen
  simp only [rollingOK, Bool.and_eq_true] at h
  rw [hdrop] at h
  have hle : m.now + 10 ≤ rest[4].now := by simpa using h.1
  have hmem : rest[4] ∈ rest.take (k + 1) := by
    have ht : 4 < (rest.take (k + 1)).length := by
      simp only [List.length_take]
      omega
    have hgt4 := List.getElem_take rest (j := k + 1) (i := 4) (h := ht)
    rw [← hgt4]
    exact List.getElem_mem ht
  have := htake _ hmem
  omega

lemma winInv_head (c e : Nat) (m : Msg) (rest : List Msg)
    (hinv : winInv c e (m :: rest)) (hm : m.now < e) : c + 1 ≤ 5 := by
  have h0 : ∀ x ∈ (m :: rest).take (0 + 1), x.now < e := by
    intro x hx
    simp at hx
    subst hx
    exact hm
  have := hinv 0 (by simp) h0
  omega

lemma winInv_tail (c e : Nat) (m : Msg) (rest : List Msg)
    (hinv : winInv c e (m :: rest)) (hm : m.now < e) : winInv (c + 1) e rest := by
  intro k hk htake
  have h1 : ∀ x ∈ (m :: rest).take (k + 1 + 1), x.now < e := by
    intro x hx
    rw [List.take_succ_cons] at hx
    rcases List.mem_cons.mp hx with hxm | hxr
    · subst hxm; exact hm
    · exact htake x hxr
  have := hinv (k + 1) (by simp; omega) h1
  omega

lemma runTrace_cons_out (conn : Conn) (s : SenderState) (hist : List Event)
    (m : Msg) (rest : List Msg) (o : StepOutcome) (s' : SenderState)
    (h' : List Event)
    (hstep : processFrame conn m .noFault s hist = (o, s', h')) :
    (runTrace conn s hist (m :: rest)).2.2 = o :: (runTrace conn s' h' rest).2.2 ∧
    (runTrace conn s hist (m :: rest)).1 = (runTrace conn s' h' rest).1 := by
  simp [runTrace, hstep]

lemma runTrace_no_throttle (conn : Conn) (dn : String)
    (hdn : conn.displayName = some dn) :
    ∀ (ms : List Msg) (s : SenderState) (hist : List Event),
      (∀ m ∈ ms, validPayload m.payload = true) →
      rollingOK ms = true →
      (s = freshS ∨ ∃ c e, s = countOnly c e ∧ 1 ≤ c ∧ winInv c e ms) →
      (∀ o ∈ (runTrace conn s hist ms).2.2, ∃ ev, o = .published ev) ∧
      (runTrace conn s hist ms).1.strikes = none ∧
      (runTrace conn s hist ms).1.challenge = none ∧
      (runTrace conn s hist ms).1.block = none := by
  intro ms
  induction ms with
  | nil =>
    intro s hist _ _ hs
    rcases hs with rfl | ⟨c, e, rfl, _, _⟩ <;> simp [runTrace, freshS, countOnly]
  | cons m rest ih =>
    intro s hist hv hroll hs
    have hvm := hv m (by simp)
    have hvrest : ∀ x ∈ rest, validPayload x.payload = true :=
      fun x hx => hv x (by simp [hx])
    have hrollrest : rollingOK rest = true := rollingOK_tail m rest hroll
    rcases hs with rfl | ⟨c, e, rfl, hc1, hinv⟩
    · obtain ⟨ho1, ho2⟩ := runTrace_cons_out conn freshS hist m rest _ _ _
        (step_fresh conn m dn hist hdn hvm)
      rw [ho1, ho2]
      have hrec := ih (countOnly 1 (m.now + 10)) (appendHist (mkEvent conn m dn) hist)
        hvrest hrollrest
        (Or.inr ⟨1, m.now + 10, rfl, le_refl 1, winInv_of_rolling m rest hroll⟩)
      refine ⟨?_, hrec.2⟩
      intro o ho
      rcases List.mem_cons.mp ho with rfl | ho2
      · exact ⟨_, rfl⟩
      · exact hrec.1 o ho2
    · by_cases he : m.now < e
      · have h5 : c + 1 ≤ 5 := winInv_head c e m rest hinv he
        obtain ⟨ho1, ho2⟩ := runTrace_cons_out conn (countOnly c e) hist m rest _ _ _
          (step_countOnly conn m dn c e hist hdn hvm he hc1 h5)
        rw [ho1, ho2]
        have hrec := ih (countOnly (c + 1) e) (appendHist (mkEvent conn m dn) hist)
          hvrest hrollrest
          (Or.inr ⟨c + 1, e, rfl, by omega, winInv_tail c e m rest hinv he⟩)
        refine ⟨?_, hrec.2⟩
        intro o ho
        rcases List.mem_cons.mp ho with rfl | ho2
        · exact ⟨_, rfl⟩
        · exact hrec.1 o ho2
      · obtain ⟨ho1, ho2⟩ := runTrace_cons_out conn (countOnly c e) hist m rest _ _ _
          (step_countOnly_expired conn m dn c e hist hdn hvm he)
        rw [ho1, ho2]
        have hrec := ih (countOnly 1 (m.now + 10)) (appendHist (mkEvent conn m dn) hist)
          hvrest hrollrest
          (Or.inr ⟨1, m.now + 10, rfl, le_refl 1, winInv_of_rolling m rest hroll⟩)
        refine ⟨?_, hrec.2⟩
        intro o ho
        rcases List.mem_cons.mp ho with rfl | ho2
        · exact ⟨_, rfl⟩
        · exact hrec.1 o ho2

/-- C5: a sender with fresh rate-limit state who sends valid
(non-empty, authenticated, at most 2000-character) messages, at most 5
inside any rolling 10-second window (times non-decreasing, any
message and the one 5 places later at least 10 s apart), is never
throttled: every message is published with no error reply, and the
strikes, challenge and block flags are never set. -/
theorem c5_rolling_window_no_throttle (conn : Conn) (dn : String)
    (ms : List Msg) (hist : List Event)
    (hdn : conn.displayName = some dn)
    (hv : ∀ m ∈ ms, validPayload m.payload = true)
    (hsort : timesSorted ms = true)
    (hroll : rollingOK ms = true) :
    (∀ o ∈ (runTrace conn freshS hist ms).2.2, ∃ ev, o = .published ev) ∧
    (runTrace conn freshS hist ms).1.strikes = none ∧
    (runTrace conn freshS hist ms).1.challenge = none ∧
    (runTrace conn freshS hist ms).1.block = none :=
  runTrace_no_throttle conn dn hdn ms freshS hist hv hroll (Or.inl rfl)

/-- Witness for C5: seven messages, two seconds apart (so messages
five apart are 10 s apart), are all published and set no flag. -/
theorem c5_witness :
    (∀ o ∈ (runTrace ⟨some "a", none, true⟩ freshS []
      [⟨0, 0, "u", false, ⟨some "hi", some 1, none, none, none, none⟩⟩,
       ⟨2, 0, "u", false, ⟨some "hi", some 1, none, none, none, none⟩⟩,
       ⟨4, 0, "u", false, ⟨some "hi", some 1, none, none, none, none⟩⟩,
       ⟨6, 0, "u", false, ⟨some "hi", some 1, none, none, none, none⟩⟩,
       ⟨8, 0, "u", false, ⟨some "hi", some 1, none, none, none, none⟩⟩,
       ⟨10, 0, "u", false, ⟨some "hi", some 1, none, none, none, none⟩⟩,
       ⟨12, 0, "u", false, ⟨some "hi", some 1, none, none, none, none⟩⟩]).2.2,
      ∃ ev, o = .published ev) ∧
    (runTrace ⟨some "a", none, true⟩ freshS []
      [⟨0, 0, "u", false, ⟨some "hi", some 1, none, none, none, none⟩⟩,
       ⟨2, 0, "u", false, ⟨some "hi", some 1, none, none, none, none⟩⟩,
       ⟨4, 0, "u", false, ⟨some "hi", some 1, none, none, none, none⟩⟩,
       ⟨6, 0, "u", false, ⟨some "hi", some 1, none, none, none, none⟩⟩,
       ⟨8, 0, "u", false, ⟨some "hi", some 1, none, none, none, none⟩⟩,
       ⟨10, 0, "u", false, ⟨some "hi", some 1, none, none, none, none⟩⟩,
       ⟨12, 0, "u", false, ⟨some "hi", some 1, none, none, none, none⟩⟩]).1.strikes = none ∧
    (runTrace ⟨some "a", none, true⟩ freshS []
      [⟨0, 0, "u", false, ⟨some "hi", some 1, none, none, none, none⟩⟩,
       ⟨2, 0, "u", false, ⟨some "hi", some 1, none, none, none, none⟩⟩,
       ⟨4, 0, "u", false, ⟨some "hi", some 1, none, none, none, none⟩⟩,
       ⟨6, 0, "u", false, ⟨some "hi", some 1, none, none, none, none⟩⟩,
       ⟨8, 0, "u", false, ⟨some "hi", some 1, none, none, none, none⟩⟩,
       ⟨10, 0, "u", false, ⟨some "hi", some 1, none, none, none, none⟩⟩,
       ⟨12, 0, "u", false, ⟨some "hi", some 1, none, none, none, none⟩⟩]).1.challenge = none ∧
    (runTrace ⟨some "a", none, true⟩ freshS []
      [⟨0, 0, "u", false, ⟨some "hi", some 1, none, none, none, none⟩⟩,
       ⟨2, 0, "u", false, ⟨some "hi", some 1, none, none, none, none⟩⟩,
       ⟨4, 0, "u", false, ⟨some "hi", some 1, none, none, none, none⟩⟩,
       ⟨6, 0, "u", false, ⟨some "hi", some 1, none, none, none, none⟩⟩,
       ⟨8, 0, "u", false, ⟨some "hi", some 1, none, none, none, none⟩⟩,
       ⟨10, 0, "u", false, ⟨some "hi", some 1, none, none, none, none⟩⟩,
       ⟨12, 0, "u", false, ⟨some "hi", some 1, none, none, none, none⟩⟩]).1.block = none :=
  c5_rolling_window_no_throttle ⟨some "a", none, true⟩ "a" _ [] rfl
    (by decide) (by decide) (by decide)

end CottageChat
